import Mathlib

/-!
Verification development for the QuerySprout fan-out tool
(`utils.py`: `QueryAnalyzer`, `ContentAnalyzer`).

The Python template builders and extraction helpers are shallowly embedded:

* Python strings become `String`; `str.split()`, `str.strip()`,
  `str.startswith`, the substring test `needle in hay`, `str.upper()`,
  `str.title()` and `str.replace` are modelled character by character
  (`splitWs`, `py_strip`, `py_startswith`, `pyIn`, `py_upper`, `py_title`,
  `py_replace_underscore`).
* The settings dict is the record `Settings`; a missing key is `none` /
  `false`, matching `dict.get` defaults and Python truthiness.
* A prompt builder that grows a string through repeated `prompt += ...`
  is embedded as the list of appended chunks
  (`new_content_prompt_chunks`, `build_optimization_prompt_chunks`);
  the final string is `String.join` of that list.  Every chunk literal
  below is the exact text of the corresponding template segment of
  `utils.py` (the braces of the FAQ-schema block are transcribed as
  literal text).
* `json.loads` and the provider call are external collaborators passed
  in as function parameters; `urlparse(base_url).netloc` is passed in
  as the already-computed `domain` string.
-/

set_option maxRecDepth 10000

namespace QuerySprout

/-- The whitespace set of Python `str.split()` / `str.strip()`
(the ASCII part; Python additionally treats some rare Unicode spaces
as whitespace, which does not affect the properties proved here). -/
def pyIsSpace (c : Char) : Bool :=
  c = ' ' || c = '\t' || c = '\n' || c = '\r' || c = '\x0b' || c = '\x0c'

/-- Worker for Python `str.split()`: splits on runs of whitespace,
dropping empty tokens; `acc` holds the current token reversed. -/
def splitWs : List Char → List Char → List (List Char)
  | [], acc => if acc.isEmpty then [] else [acc.reverse]
  | c :: cs, acc =>
    if pyIsSpace c then
      if acc.isEmpty then splitWs cs [] else acc.reverse :: splitWs cs []
    else splitWs cs (c :: acc)

/-- Python `s.split()` (no separator argument). -/
def pySplit (s : String) : List String :=
  (splitWs s.data []).map String.mk

/-- Python `' '.join(tokens)` at the character level. -/
def joinWs (ts : List (List Char)) : List Char :=
  (List.intersperse [' '] ts).flatten

/-- Python `s.strip()`. -/
def py_strip (s : String) : String :=
  String.mk (((s.data.dropWhile pyIsSpace).reverse.dropWhile pyIsSpace).reverse)

/-- Python `s.startswith(p)`. -/
def py_startswith (s p : String) : Bool :=
  p.data.isPrefixOf s.data

/-- Substring search worker for the Python `in` operator. -/
def contains_seq (needle : List Char) : List Char → Bool
  | [] => needle.isEmpty
  | c :: cs => needle.isPrefixOf (c :: cs) || contains_seq needle cs

/-- The Python test `needle in hay` on strings. -/
def pyIn (needle hay : String) : Bool :=
  contains_seq needle.data hay.data

/-- Python `s.upper()` (ASCII behaviour). -/
def py_upper (s : String) : String :=
  String.mk (s.data.map Char.toUpper)

/-- Worker for Python `s.title()`: uppercase a letter after a
non-letter, lowercase a letter after a letter. -/
def py_title_aux : Bool → List Char → List Char
  | _, [] => []
  | prevAlpha, c :: cs =>
    (if c.isAlpha then (if prevAlpha then c.toLower else c.toUpper) else c)
      :: py_title_aux c.isAlpha cs

/-- Python `s.title()` (ASCII behaviour). -/
def py_title (s : String) : String :=
  String.mk (py_title_aux false s.data)

/-- Python `s.replace(underscore, space)` as used on `ai_search_type`. -/
def py_replace_underscore (s : String) : String :=
  String.mk (s.data.map fun c => if c = '_' then ' ' else c)

/-- The Python test `o in [x, y]` where `o` may be `None`
(`settings.get` with no default). -/
def py_get_in (o : Option String) (l : List String) : Bool :=
  match o with
  | some v => l.contains v
  | none => false

/-- One entry of `content_data['headings']`: `level` is the tag name
(for example `h2`), `text` the trimmed heading text. -/
structure Heading where
  level : String
  text : String
deriving DecidableEq

/-- One entry of `content_data['images']`. -/
structure Image where
  src : String
  alt : String
  title : String
deriving DecidableEq

/-- An `<a href=...>` element as seen by the link extractors:
the raw `href` attribute and the untrimmed anchor text. -/
structure Anchor where
  href : String
  text : String
deriving DecidableEq

/-- One entry of `internal_links` / `external_links`:
`{'url': href, 'text': link.get_text().strip()}`. -/
structure Link where
  url : String
  text : String
deriving DecidableEq

/-- The `content_data` dict built by `ContentAnalyzer.fetch_content`
(the DocumentModel of the specification; `fetch_time` omitted). -/
structure DocModel where
  url : String := ""
  title : String := ""
  meta_description : String := ""
  headings : List Heading := []
  content : String := ""
  images : List Image := []
  internal_links : List Link := []
  external_links : List Link := []
  word_count : Nat := 0
deriving DecidableEq

/-- The `analysis_settings` dict.  A field value `none` / `false`
models an absent key, matching the `settings.get` defaults used by the
builders. -/
structure Settings where
  variant_types : Option (List String) := none
  target_audience : Option String := none
  content_type : Option String := none
  ai_search_type : Option String := none
  depth : Option String := none
  include_entity_mapping : Bool := false
  include_cross_verification : Bool := false
  include_schema : Bool := false
  include_competitors : Bool := false

/-- `ContentAnalyzer._extract_title`: the trimmed text of the first
`<title>` element if one exists, else the trimmed text of the first
`<h1>` if one exists, else the sentinel.  The arguments are the raw
text of those elements when present (`soup.find` results). -/
def extract_title (title_tag h1_tag : Option String) : String :=
  match title_tag with
  | some t => py_strip t
  | none =>
    match h1_tag with
    | some h => py_strip h
    | none => "No title found"

/-- The condition of `ContentAnalyzer._extract_internal_links`:
`domain in href or href.startswith('/')`. -/
def is_internal_href (domain href : String) : Bool :=
  pyIn domain href || py_startswith href "/"

/-- The condition of `ContentAnalyzer._extract_external_links`:
`href.startswith('http') and domain not in href`. -/
def is_external_href (domain href : String) : Bool :=
  py_startswith href "http" && !(pyIn domain href)

/-- The dict appended for a kept anchor: `{'url': href, 'text': link.get_text().strip()}`. -/
def link_of_anchor (a : Anchor) : Link :=
  ⟨a.href, py_strip a.text⟩

/-- `ContentAnalyzer._extract_internal_links`; `domain` is
`urlparse(base_url).netloc`, `anchors` the `<a href=...>` elements in
document order. -/
def extract_internal_links (domain : String) (anchors : List Anchor) : List Link :=
  (anchors.filter fun a => is_internal_href domain a.href).map link_of_anchor

/-- `ContentAnalyzer._extract_external_links`. -/
def extract_external_links (domain : String) (anchors : List Anchor) : List Link :=
  (anchors.filter fun a => is_external_href domain a.href).map link_of_anchor

/-- `Except` to `Option`, for collecting only successful parses. -/
def except_to_option {ε α : Type} : Except ε α → Option α
  | .ok a => some a
  | .error _ => none

/-- `ContentAnalyzer._extract_structured_data`: for every
`<script type="application/ld+json">` element try `json.loads` on its
`.string` (which may be `None`); append the value on success, swallow
any exception (`except: pass`).  `loads` is the external `json.loads`,
returning `.error` when it would raise. -/
def extract_structured_data {α : Type} (loads : Option String → Except String α)
    (scripts : List (Option String)) : List α :=
  scripts.foldl
    (fun acc sc =>
      match loads sc with
      | .ok d => acc ++ [d]
      | .error _ => acc)
    []
def b1a : String :=
  "\n        You are an expert in Google\x27s Query Fan-Out system and AI-powered search optimization.\n        \n        CONTEXT:\n        - Target Audience: "

def b1b : String :=
  "\n        - Content Type: "

def b1c : String :=
  "\n        - Optimization Target: "

def b1d : String :=
  "\n        - Analysis Depth: "

def b1e : String :=
  "\n        \n        QUERY VARIANT TYPES TO GENERATE:\n        "

def b1f : String :=
  "\n        \n        TARGET QUERIES FOR NEW CONTENT:\n        "

def b1g : String :=
  "\n        \n        Please provide a comprehensive Query Fan-Out analysis following Google\x27s methodology:\n        \n        ## 1. QUERY FAN-OUT GENERATION\n        For each target query, generate ALL requested variant types:\n        "

def instrEquivalent : String :=
  "\n        - **Equivalent Queries**: List 3-5 alternative phrasings users might use\n        "

def instrFollowUp : String :=
  "\n        - **Follow-up Queries**: List 3-5 logical next questions users would ask\n        "

def instrGeneralization : String :=
  "\n        - **Generalization Queries**: List 2-3 broader topic queries\n        "

def instrSpecification : String :=
  "\n        - **Specification Queries**: List 3-5 more specific/detailed versions\n        "

def instrEntailment : String :=
  "\n        - **Entailment Queries**: List 2-3 logically implied questions\n        "

def instrCanonicalization : String :=
  "\n        - **Canonicalization Queries**: List 2-3 standardized versions\n        "

def instrClarification : String :=
  "\n        - **Clarification Queries**: List 2-3 questions to clarify intent\n        "

def ncBlock2 : String :=
  "\n        \n        ## 2. MULTI-PATH EXPLORATION\n        Identify different interpretation paths for ambiguous queries:\n        - Technical vs. General interpretations\n        - Commercial vs. Informational intents\n        - Different user contexts (beginner vs. expert)\n        \n        ## 3. CONTENT ARCHITECTURE\n        Based on the fan-out analysis, provide:\n        - **Primary Content Hub**: Main pillar page structure\n        - **Supporting Content**: List of supporting articles needed\n        - **Content Depth**: Word count recommendations for each piece\n        - **Internal Linking Strategy**: How to connect the content\n        "

def ncSec4 : String :=
  "\n        \n        ## 4. AI OVERVIEWS OPTIMIZATION\n        For quick answer optimization:\n        - **Direct Answer Format**: Exact 40-60 word answers for each query\n        - **Snippet Structure**: Paragraph vs. list vs. table recommendations\n        - **First 100 Words**: Optimization strategy for immediate visibility\n        - **FAQ Structure**: Questions and concise answers\n        "

def ncSec5 : String :=
  "\n        \n        ## 5. AI MODE OPTIMIZATION\n        For complex query fan-out:\n        - **Passage-Level Coverage**: Key passages to include\n        - **Semantic Completeness**: Topics that must be covered\n        - **Entity Relationships**: Core entities and their connections\n        - **Progressive Disclosure**: Information architecture strategy\n        "

def ncSec6 : String :=
  "\n        \n        ## 6. ENTITY MAPPING\n        - **Core Entities**: Primary entities to define\n        - **Entity Relationships**: How entities connect\n        - **Knowledge Graph**: Visual representation of connections\n        - **Semantic Markup**: Schema.org recommendations\n        "

def ncSec7 : String :=
  "\n        \n        ## 7. CROSS-VERIFICATION STRATEGY\n        - **Fact Verification**: Key facts to verify and cite\n        - **Contradictory Information**: How to handle conflicting data\n        - **Authority Signals**: Sources and citations to include\n        - **Trust Indicators**: Elements that build credibility\n        "

def ncSec8 : String :=
  "\n        \n        ## 8. SCHEMA MARKUP STRATEGY\n        - **Essential Schemas**: Required schema types\n        - **FAQ Schema**: Questions and answers\n        - **HowTo Schema**: Step-by-step processes\n        - **Article/BlogPosting**: Metadata requirements\n        "

def ncSec9 : String :=
  "\n        \n        ## 9. COMPETITIVE DIFFERENTIATION\n        - **Content Gaps**: What competitors likely miss\n        - **Unique Angles**: Fresh perspectives to explore\n        - **10x Content**: How to create superior content\n        - **Differentiation Strategy**: Unique value propositions\n        "

def ncFinal : String :=
  "\n        \n        ## 10. IMPLEMENTATION ROADMAP\n        Provide a prioritized action plan:\n        1. **Quick Wins**: Content that can rank quickly\n        2. **Foundation Content**: Essential pieces to create first\n        3. **Supporting Content**: Secondary pieces to develop\n        4. **Enhancement Strategy**: Ongoing optimization approach\n        \n        ## 11. SUCCESS METRICS\n        - **Ranking Targets**: Expected positions for each query\n        - **Visibility Indicators**: AI mode appearance signals\n        - **Engagement Metrics**: User behavior targets\n        - **Conversion Goals**: Business outcomes to track\n        \n        Format your response with clear sections, bullet points, and actionable recommendations.\n        Focus on practical implementation using Google\x27s Query Fan-Out methodology.\n        "

def csA : String :=
  "\n        URL: "

def csB : String :=
  "\n        Title: "

def csC : String :=
  "\n        Meta Description: "

def csD : String :=
  "\n        Word Count: "

def csE : String :=
  "\n        Headings Count: "

def csF : String :=
  "\n        Images: "

def csG : String :=
  "\n        Internal Links: "

def csH : String :=
  "\n        External Links: "

def csI : String :=
  "\n        "

def omb1 : String :=
  "\n        You are an expert content optimizer specializing in Google\x27s Query Fan-Out system and AI Overviews optimization.\n        \n        CRITICAL INSTRUCTION: Provide SPECIFIC, ACTIONABLE REWRITES that can be directly copy-pasted into the content. Not generic advice.\n        \n        TARGET OPTIMIZATION:\n        - Primary Keyword: "

def omb2 : String :=
  "\n        - Additional Keywords: "

def omb3 : String :=
  "\n        - Optimization Type: "

def omb4 : String :=
  "\n        \n        CURRENT CONTENT ANALYSIS:\n        "

def omb5 : String :=
  "\n        \n        HEADING STRUCTURE:\n        "

def omb6 : String :=
  "\n        \n        CONTENT SAMPLE (First 1000 words):\n        "

def omb7 : String :=
  "\n        \n        Provide the following ACTIONABLE optimization report:\n        \n        # \u00f0\u0178\u201c\u0160 QUERY FAN-OUT OPTIMIZATION REPORT\n        \n        ## 1. \u00f0\u0178\u017d\u00af QUICK WIN: ANSWER BOX OPTIMIZATION\n        \n        ### Current Opening (if exists)\n        \u0060\u0060\u0060\n        [Extract and show the current opening paragraph]\n        \u0060\u0060\u0060\n        \n        ### OPTIMIZED REWRITE FOR AI OVERVIEW\n        \u0060\u0060\u0060\n        [Provide a completely rewritten opening that:\n        - Answers the primary query in the first 40-60 words\n        - Uses natural, conversational tone matching the original style\n        - Includes the primary keyword naturally\n        - Structures for featured snippet extraction]\n        \u0060\u0060\u0060\n        \n        ### Implementation Notes\n        - Why this works better: [Brief explanation]\n        - Expected impact: [Specific ranking/CTR improvement]\n        \n        ## 2. \u00f0\u0178\u201d QUERY VARIANT COVERAGE ANALYSIS\n        \n        Based on \""

def omb8 : String :=
  "\", these query variants MUST be addressed:\n        \n        ### Missing Query Variants Your Content Doesn\x27t Answer:\n        1. **[Specific query variant]** - Not covered\n        2. **[Specific query variant]** - Partially covered in [section]\n        3. **[Specific query variant]** - Not covered\n        \n        ### NEW SECTIONS TO ADD (Copy-Paste Ready)\n        \n        #### New Section 1: [Specific Heading]\n        \u0060\u0060\u0060markdown\n        ## [Exact Heading to Add]\n        \n        [Write 150-200 words of ready-to-use content that:\n        - Answers the specific query variant\n        - Maintains the original writing style\n        - Includes relevant entities and keywords\n        - Uses proper formatting for AI extraction]\n        \u0060\u0060\u0060\n        \n        #### New Section 2: [Specific Heading]\n        \u0060\u0060\u0060markdown\n        ## [Exact Heading to Add]\n        \n        [Write another 150-200 words of ready-to-use content]\n        \u0060\u0060\u0060\n        \n        ## 3. \u00f0\u0178\u201c CRITICAL CONTENT REWRITES\n        \n        ### REWRITE 1: [Specific Section Name]\n        \n        **Current Version Issues:**\n        - [Specific problem 1]\n        - [Specific problem 2]\n        \n        **OPTIMIZED REWRITE:**\n        \u0060\u0060\u0060markdown\n        [Provide complete rewritten section that:\n        - Fixes the identified issues\n        - Adds query variant coverage\n        - Improves for AI extraction\n        - Maintains original tone and style]\n        \u0060\u0060\u0060\n        \n        ### REWRITE 2: [Another Section Name]\n        \n        **Current Version Issues:**\n        - [Specific problem]\n        \n        **OPTIMIZED REWRITE:**\n        \u0060\u0060\u0060markdown\n        [Complete rewritten section]\n        \u0060\u0060\u0060\n        \n        ## 4. \u00f0\u0178\u2014\u00ef\u00b8 STRUCTURAL IMPROVEMENTS\n        \n        ### Current Structure Problem\n        [Identify specific structural issue]\n        \n        ### EXACT RESTRUCTURING PLAN\n        \u0060\u0060\u0060\n        1. Move [specific section] to position 2\n        2. Combine [section X] with [section Y] under new heading: \"[New Heading]\"\n        3. Break up [long section] into:\n           - [New subsection 1]\n           - [New subsection 2]\n           - [New subsection 3]\n        4. Add new section after [specific location]: \"[New Section Title]\"\n        \u0060\u0060\u0060\n        \n        ## 5. \u00f0\u0178\u017d\u00a8 METADATA OPTIMIZATION\n        \n        ### Current Title Tag\n        \u0060\u0060\u0060\n        "

def omb9 : String :=
  "\n        \u0060\u0060\u0060\n        \n        ### OPTIMIZED Title Tag\n        \u0060\u0060\u0060\n        [New title that\x27s exactly 50-60 characters, includes primary keyword, and encourages clicks]\n        \u0060\u0060\u0060\n        \n        ### Current Meta Description\n        \u0060\u0060\u0060\n        "

def omb10a : String :=
  "\n        \u0060\u0060\u0060\n        \n        ### OPTIMIZED Meta Description\n        \u0060\u0060\u0060\n        [New description that\x27s exactly 150-160 characters, includes primary keyword, has clear CTA]\n        \u0060\u0060\u0060\n        \n        ## 6. \u00f0\u0178\u201c\u2039 FAQ SECTION TO ADD (Copy-Paste Ready)\n        \n        Add this exact FAQ section to capture more query variants:\n        \n        \u0060\u0060\u0060markdown\n        ## Frequently Asked Questions\n        \n        ### [Question 1 that targets a specific query variant]\n        [40-60 word answer that\x27s voice-search optimized]\n        \n        ### [Question 2 that targets another variant]\n        [40-60 word answer]\n        \n        ### [Question 3 that targets another variant]\n        [40-60 word answer]\n        \n        ### [Question 4 that targets another variant]\n        [40-60 word answer]\n        \u0060\u0060\u0060\n        \n        ## 7. \u00f0\u0178\u201d\u2014 INTERNAL LINKING OPTIMIZATION\n        \n        ### Links to ADD:\n        1. In paragraph about [topic], add link to [URL] with anchor text \"[exact anchor text]\"\n        2. In section [X], add link to [URL] with anchor text \"[exact anchor text]\"\n        3. After [specific sentence], add: \"Learn more about [anchor text](URL)\"\n        \n        ### Links to REMOVE or UPDATE:\n        1. Remove link in [location] - reason: [specific reason]\n        2. Change \"[current anchor]\" to \"[new anchor]\" in [location]\n        \n        ## 8. \u00f0\u0178\u201c\u0160 SCHEMA MARKUP TO IMPLEMENT\n        \n        ### FAQ Schema (Copy-Paste Ready)\n        \u0060\u0060\u0060json\n        \x7b\n          \"@context\": \"https://schema.org\",\n          \"@type\": \"FAQPage\",\n          \"mainEntity\": [\n            \x7b\n              \"@type\": \"Question\",\n              \"name\": \"[Question 1]\",\n              \"acceptedAnswer\": \x7b\n                \"@type\": \"Answer\",\n                \"text\": \"[Answer 1]\"\n              \x7d\n            \x7d\n          ]\n        \x7d\n        \u0060\u0060\u0060\n        \n        ## 9. \u00f0\u0178\u0161\u20ac IMPLEMENTATION PRIORITY\n        \n        ### DO TODAY (15 minutes):\n        1. [ ] Copy-paste the new opening paragraph\n        2. [ ] Update title tag and meta description\n        3. [ ] Add the FAQ section at the end\n        \n        ### DO THIS WEEK (1-2 hours):\n        1. [ ] Implement all content rewrites from Section 3\n        2. [ ] Add the new sections from Section 2\n        3. [ ] Restructure content per Section 4\n        \n        ### DO THIS MONTH:\n        1. [ ] Implement schema markup\n        2. [ ] Update internal linking\n        3. [ ] Create supporting content for query variants\n        \n        ## 10. \u00f0\u0178\u201c\u02c6 EXPECTED RESULTS\n        \n        After implementing these SPECIFIC changes:\n        - **Week 1**: Expect improved CTR (+15-20%) from better meta tags\n        - **Week 2-4**: See featured snippet appearance for 2-3 query variants\n        - **Month 2**: Achieve page 1 rankings for additional 3-5 long-tail variants\n        - **Month 3**: Potential AI Overview inclusion for primary keyword\n        \n        "

def optSec11Heading : String :=
  "## 11. \u00f0\u0178\u017d\u00af COMPETITOR GAP ANALYSIS"

def omb10b : String :=
  "\n        \n        "

def competitorGapBody : String :=
  "\n        Based on competitor analysis, here\x27s what they have that you\x27re missing:\n        \n        ### Content They Cover That You Don\x27t:\n        1. [Specific topic/section]\n        2. [Specific topic/section]\n        3. [Specific topic/section]\n        \n        ### ADD THIS SECTION to compete:\n        \u0060\u0060\u0060markdown\n        [Write ready-to-use content section that fills the gap]\n        \u0060\u0060\u0060\n        "

def optClosing : String :=
  "\n        \n        ---\n        \n        Remember: Every suggestion above is SPECIFIC and ACTIONABLE. The user should be able to copy-paste rewrites directly into their CMS without any additional editing needed.\n        \n        Focus on maintaining the original writing style and brand voice while optimizing for Query Fan-Out and AI Overviews.\n        "
/-- The description elif-chain of `_build_new_content_prompt`
(lines 264-278 of `utils.py`), in source order; an unknown key
contributes nothing. -/
def variant_description (v : String) : Option String :=
  if v = "equivalent" then some "- Equivalent: Alternative ways to ask the same question"
  else if v = "follow_up" then some "- Follow-up: Logical next questions"
  else if v = "generalization" then some "- Generalization: Broader versions of queries"
  else if v = "canonicalization" then some "- Canonicalization: Standardized search terms"
  else if v = "entailment" then some "- Entailment: Logically implied queries"
  else if v = "specification" then some "- Specification: More detailed versions"
  else if v = "clarification" then some "- Clarification: Intent clarification queries"
  else none

/-- The `variant_descriptions` list accumulated by the description
loop, in the iteration order of its input. -/
def variant_descriptions (vts : List String) : List String :=
  vts.filterMap variant_description

/-- The instruction elif-chain of `_build_new_content_prompt`
(lines 302-330 of `utils.py`), in source order. -/
def variant_instruction (v : String) : Option String :=
  if v = "equivalent" then some instrEquivalent
  else if v = "follow_up" then some instrFollowUp
  else if v = "generalization" then some instrGeneralization
  else if v = "specification" then some instrSpecification
  else if v = "entailment" then some instrEntailment
  else if v = "canonicalization" then some instrCanonicalization
  else if v = "clarification" then some instrClarification
  else none

/-- The per-variant instruction chunks appended by the instruction
loop, in the iteration order of its input. -/
def variant_instruction_chunks (vts : List String) : List String :=
  vts.filterMap variant_instruction

/-- The seven catalog keys in the canonical order of the
specification (also the order of `Config.VARIANT_TYPES`). -/
def canonical_variant_keys : List String :=
  ["equivalent", "follow_up", "generalization", "canonicalization",
   "entailment", "specification", "clarification"]

/-- Follows the words of the specification, for comparison with the
source-derived `variant_descriptions`: the description lines of the
selected keys listed in the canonical catalog order. -/
def spec_canonical_descriptions (selected : List String) : List String :=
  (canonical_variant_keys.filter fun k => selected.contains k).filterMap variant_description

/-- The numbered query list `f"{i+1}. {q}"` of the planning prompt. -/
def numbered_queries (queries : List String) : List String :=
  queries.enum.map fun p => toString (p.1 + 1) ++ ". " ++ p.2

/-- Everything of the opening f-string of `_build_new_content_prompt`
after its first literal segment `b1a`. -/
def nc_block1_tail (queries : List String) (s : Settings) : String :=
  (s.target_audience.getD "General audience") ++ b1b
    ++ (s.content_type.getD "Blog Post") ++ b1c
    ++ py_title (py_replace_underscore (s.ai_search_type.getD "ai_mode")) ++ b1d
    ++ (s.depth.getD "Standard") ++ b1e
    ++ String.intercalate "\n" (variant_descriptions (s.variant_types.getD ["equivalent", "follow_up"])) ++ b1f
    ++ String.intercalate "\n" (numbered_queries queries) ++ b1g

/-- The opening f-string of `_build_new_content_prompt`
(lines 280-299 of `utils.py`). -/
def nc_block1 (queries : List String) (s : Settings) : String :=
  b1a ++ nc_block1_tail queries s

/-- `QueryAnalyzer._build_new_content_prompt`, as the sequence of
chunks appended to `prompt` in source order.  The prompt string is
`String.join` of this list. -/
def new_content_prompt_chunks (queries : List String) (s : Settings) : List String :=
  [nc_block1 queries s]
    ++ variant_instruction_chunks (s.variant_types.getD [])
    ++ [ncBlock2]
    ++ (if py_get_in s.ai_search_type ["ai_overviews", "both"] then [ncSec4] else [])
    ++ (if py_get_in s.ai_search_type ["ai_mode", "both"] then [ncSec5] else [])
    ++ (if s.include_entity_mapping then [ncSec6] else [])
    ++ (if s.include_cross_verification then [ncSec7] else [])
    ++ (if s.include_schema then [ncSec8] else [])
    ++ (if s.include_competitors then [ncSec9] else [])
    ++ [ncFinal]

/-- The prompt string returned by `_build_new_content_prompt`. -/
def build_new_content_prompt (queries : List String) (s : Settings) : String :=
  String.join (new_content_prompt_chunks queries s)

/-- `QueryAnalyzer.analyze_query_fanout_new_content`: a falsy api key
short-circuits to `None`; otherwise the prompt is built and handed to
the provider (`generate` is the external `AIProvider.generate_content`). -/
def analyze_query_fanout_new_content (queries : List String) (api_key : String)
    (s : Settings) (generate : String → Option String) : Option String :=
  if api_key = "" then none
  else generate (build_new_content_prompt queries s)

/-- The `content_summary` f-string of `_build_optimization_prompt`. -/
def content_summary (doc : DocModel) : String :=
  csA ++ doc.url ++ csB ++ doc.title ++ csC ++ doc.meta_description
    ++ csD ++ toString doc.word_count ++ csE ++ toString doc.headings.length
    ++ csF ++ toString doc.images.length ++ csG ++ toString doc.internal_links.length
    ++ csH ++ toString doc.external_links.length ++ csI

/-- The `heading_structure` join of `_build_optimization_prompt`:
`f"{h['level'].upper()}: {h['text']}"` over the first 20 headings. -/
def heading_structure (doc : DocModel) : String :=
  String.intercalate "\n" ((doc.headings.take 20).map fun h => py_upper h.level ++ ": " ++ h.text)

/-- The `content_excerpt` of `_build_optimization_prompt`:
`' '.join(content_data['content'].split()[:1000])`. -/
def content_excerpt (content : String) : String :=
  String.mk (joinWs ((splitWs content.data []).take 1000))

/-- Everything of the main f-string of `_build_optimization_prompt`
after its first literal segment `omb1`.  The final literal segment of
the f-string is written `omb10a ++ optSec11Heading ++ omb10b`, split
at the section-11 heading. -/
def opt_main_tail (doc : DocModel) (primary_keyword : String)
    (additional_keywords : List String) (s : Settings) : String :=
  primary_keyword ++ omb2
    ++ (if additional_keywords.isEmpty then "None"
        else String.intercalate ", " additional_keywords) ++ omb3
    ++ py_title (py_replace_underscore (s.ai_search_type.getD "ai_mode")) ++ omb4
    ++ content_summary doc ++ omb5
    ++ heading_structure doc ++ omb6
    ++ content_excerpt doc.content ++ omb7
    ++ primary_keyword ++ omb8
    ++ doc.title ++ omb9
    ++ doc.meta_description ++ omb10a
    ++ optSec11Heading ++ omb10b

/-- The main f-string of `_build_optimization_prompt`
(lines 644-859 of `utils.py`). -/
def opt_main_block (doc : DocModel) (primary_keyword : String)
    (additional_keywords : List String) (s : Settings) : String :=
  omb1 ++ opt_main_tail doc primary_keyword additional_keywords s

/-- `ContentAnalyzer._build_optimization_prompt`, as the sequence of
chunks appended to `prompt` in source order: the main f-string, then
`competitorGapBody` exactly when `competitor_data` is truthy
(non-empty), then the closing chunk.  The settings are never consulted
here for the competitor section. -/
def build_optimization_prompt_chunks (doc : DocModel) (primary_keyword : String)
    (additional_keywords : List String) (competitor_data : List DocModel)
    (s : Settings) : List String :=
  [opt_main_block doc primary_keyword additional_keywords s]
    ++ (if competitor_data.isEmpty then [] else [competitorGapBody])
    ++ [optClosing]

/-- The prompt string returned by `_build_optimization_prompt`. -/
def build_optimization_prompt (doc : DocModel) (primary_keyword : String)
    (additional_keywords : List String) (competitor_data : List DocModel)
    (s : Settings) : String :=
  String.join (build_optimization_prompt_chunks doc primary_keyword additional_keywords
    competitor_data s)

/-- `ContentAnalyzer.analyze_existing_content`: competitor pages are
fetched (at most 3, failures skipped) only when `competitor_urls` is
non-empty and the `include_competitors` flag is set; then the prompt
is built and handed to the provider.  `fetch` is the external
`ContentAnalyzer.fetch_content`. -/
def analyze_existing_content (doc : DocModel) (primary_keyword : String)
    (additional_keywords : List String) (competitor_urls : List String)
    (api_key : String) (s : Settings) (fetch : String → Option DocModel)
    (generate : String → Option String) : Option String :=
  if api_key = "" then none
  else
    let competitor_data :=
      if !competitor_urls.isEmpty && s.include_competitors then
        (competitor_urls.take 3).filterMap fetch
      else []
    generate (build_optimization_prompt doc primary_keyword additional_keywords
      competitor_data s)

/-- Follows the words of the specification, for comparison with the
source-derived link classifiers: the host of an absolute http(s) URL,
`none` for any other href (relative path, `mailto:`, fragment, ...). -/
def spec_href_host (href : String) : Option String :=
  if py_startswith href "http://" then
    some (String.mk ((href.data.drop 7).takeWhile fun c => !(c = '/' || c = '?' || c = '#')))
  else if py_startswith href "https://" then
    some (String.mk ((href.data.drop 8).takeWhile fun c => !(c = '/' || c = '?' || c = '#')))
  else none

/-- Follows the words of the specification: internal iff the href host
equals the source host, or the href is root-relative. -/
def spec_is_internal (src_host href : String) : Bool :=
  (spec_href_host href == some src_host) || py_startswith href "/"

/-- Follows the words of the specification: external iff the href is
an absolute http(s) URL with a different host. -/
def spec_is_external (src_host href : String) : Bool :=
  match spec_href_host href with
  | some h => h != src_host
  | none => false

/-- A concrete document for the closed instances below. -/
def doc0 : DocModel :=
  { url := "https://example.com", title := "Title" }
/-! ## General helper lemmas -/

theorem str_data_append (a b : String) : (a ++ b).data = a.data ++ b.data := rfl

theorem take_append_le {α : Type} : ∀ (n : Nat) (l1 l2 : List α),
    n ≤ l1.length → (l1 ++ l2).take n = l1.take n := by
  intro n
  induction n with
  | zero => intro l1 l2 _; simp
  | succ m ih =>
    intro l1 l2 h
    cases l1 with
    | nil => simp at h
    | cons a t =>
      simp only [List.cons_append, List.take_succ_cons]
      rw [ih t l2 (by simpa using h)]

theorem take_data_append (n : Nat) (a b : String) (h : n ≤ a.data.length) :
    (a ++ b).data.take n = a.data.take n := by
  rw [str_data_append, take_append_le n a.data b.data h]

theorem mem_ite_singleton {α : Type} {c : Prop} [Decidable c] {a b : α} :
    (a ∈ if c then [b] else []) ↔ c ∧ a = b := by
  split <;> simp_all

theorem mem_ite_nil_singleton {α : Type} {c : Prop} [Decidable c] {a b : α} :
    (a ∈ if c then [] else [b]) ↔ ¬c ∧ a = b := by
  split <;> simp_all

theorem str_mid_inf (a h b : String) : h.data <:+: (a ++ h ++ b).data :=
  ⟨a.data, b.data, by simp [str_data_append]⟩

theorem inf_append_left {l : List Char} (a t : String) (h : l <:+: t.data) :
    l <:+: (a ++ t).data := by
  rw [str_data_append]
  obtain ⟨u, v, he⟩ := h
  exact ⟨a.data ++ u, v, by rw [← he]; simp [List.append_assoc]⟩

/-! ## Structure of the planning-prompt chunk list -/

theorem nc_block1_take (queries : List String) (s : Settings) :
    (nc_block1 queries s).data.take 10 = b1a.data.take 10 :=
  take_data_append 10 b1a (nc_block1_tail queries s) (by decide)

theorem ncSec4_ne_block1 (queries : List String) (s : Settings) :
    ncSec4 ≠ nc_block1 queries s := by
  intro e
  have h := nc_block1_take queries s
  rw [← e] at h
  exact (by decide : ncSec4.data.take 10 ≠ b1a.data.take 10) h

theorem ncSec5_ne_block1 (queries : List String) (s : Settings) :
    ncSec5 ≠ nc_block1 queries s := by
  intro e
  have h := nc_block1_take queries s
  rw [← e] at h
  exact (by decide : ncSec5.data.take 10 ≠ b1a.data.take 10) h

theorem variant_instruction_mem_catalog {v l : String}
    (h : variant_instruction v = some l) :
    l ∈ [instrEquivalent, instrFollowUp, instrGeneralization, instrSpecification,
         instrEntailment, instrCanonicalization, instrClarification] := by
  unfold variant_instruction at h
  split_ifs at h <;> simp_all

theorem not_mem_instruction_chunks {x : String}
    (hx : x ∉ [instrEquivalent, instrFollowUp, instrGeneralization, instrSpecification,
               instrEntailment, instrCanonicalization, instrClarification])
    (vts : List String) : x ∉ variant_instruction_chunks vts := by
  intro hmem
  obtain ⟨v, hv1, hv2⟩ := List.mem_filterMap.mp hmem
  exact hx (variant_instruction_mem_catalog hv2)

theorem ncSec4_mem_iff (queries : List String) (s : Settings) :
    ncSec4 ∈ new_content_prompt_chunks queries s
      ↔ py_get_in s.ai_search_type ["ai_overviews", "both"] = true := by
  have h1 := ncSec4_ne_block1 queries s
  have h2 := not_mem_instruction_chunks (x := ncSec4) (by decide) (s.variant_types.getD [])
  simp [new_content_prompt_chunks, mem_ite_singleton, List.mem_append, h1, h2,
        (by decide : ncSec4 ≠ ncBlock2), (by decide : ncSec4 ≠ ncSec5),
        (by decide : ncSec4 ≠ ncSec6), (by decide : ncSec4 ≠ ncSec7),
        (by decide : ncSec4 ≠ ncSec8), (by decide : ncSec4 ≠ ncSec9),
        (by decide : ncSec4 ≠ ncFinal)]

theorem ncSec5_mem_iff (queries : List String) (s : Settings) :
    ncSec5 ∈ new_content_prompt_chunks queries s
      ↔ py_get_in s.ai_search_type ["ai_mode", "both"] = true := by
  have h1 := ncSec5_ne_block1 queries s
  have h2 := not_mem_instruction_chunks (x := ncSec5) (by decide) (s.variant_types.getD [])
  simp [new_content_prompt_chunks, mem_ite_singleton, List.mem_append, h1, h2,
        (by decide : ncSec5 ≠ ncBlock2), (by decide : ncSec5 ≠ ncSec4),
        (by decide : ncSec5 ≠ ncSec6), (by decide : ncSec5 ≠ ncSec7),
        (by decide : ncSec5 ≠ ncSec8), (by decide : ncSec5 ≠ ncSec9),
        (by decide : ncSec5 ≠ ncFinal)]

/-! ## Structure of the optimization-prompt chunk list -/

theorem opt_main_take (doc : DocModel) (kw : String) (aks : List String) (s : Settings) :
    (opt_main_block doc kw aks s).data.take 10 = omb1.data.take 10 :=
  take_data_append 10 omb1 (opt_main_tail doc kw aks s) (by decide)

theorem gapBody_ne_main (doc : DocModel) (kw : String) (aks : List String) (s : Settings) :
    competitorGapBody ≠ opt_main_block doc kw aks s := by
  intro e
  have h := opt_main_take doc kw aks s
  rw [← e] at h
  exact (by decide : competitorGapBody.data.take 10 ≠ omb1.data.take 10) h

theorem gap_mem_iff (doc : DocModel) (kw : String) (aks : List String)
    (comps : List DocModel) (s : Settings) :
    competitorGapBody ∈ build_optimization_prompt_chunks doc kw aks comps s
      ↔ comps ≠ [] := by
  have h1 := gapBody_ne_main doc kw aks s
  rcases comps with _ | ⟨d, ds⟩ <;>
    simp [build_optimization_prompt_chunks, mem_ite_nil_singleton, List.mem_append, h1,
          (by decide : competitorGapBody ≠ optClosing)]

theorem sec11_in_main (doc : DocModel) (kw : String) (aks : List String) (s : Settings) :
    optSec11Heading.data <:+: (opt_main_block doc kw aks s).data := by
  unfold opt_main_block
  exact inf_append_left omb1 _ (by unfold opt_main_tail; exact str_mid_inf _ _ _)

/-! ## Claim C1 -/

/-- Claim C1 counterexample: with a non-empty competitor list but
`include_competitors = false`, the competitor-gap body is still
appended by `_build_optimization_prompt` — the builder never consults
the flag — contradicting the claimed iff. -/
theorem claim_c1_counterexample :
    (({ include_competitors := false } : Settings).include_competitors = false) ∧
    competitorGapBody ∈ build_optimization_prompt_chunks doc0 "kw" [] [doc0]
      { include_competitors := false } :=
  ⟨rfl, by simp [build_optimization_prompt_chunks]⟩

/-- Claim C1 (amended): in `_build_optimization_prompt` the
competitor-gap body appears iff `competitor_data` is non-empty,
regardless of `settings.include_competitors` (that flag is consulted
only upstream in `analyze_existing_content` when fetching
competitors); the section-11 heading itself is part of the
unconditional main template, hence always present. -/
theorem claim_c1_amended (doc : DocModel) (kw : String) (aks : List String)
    (comps : List DocModel) (s : Settings) :
    (competitorGapBody ∈ build_optimization_prompt_chunks doc kw aks comps s
        ↔ comps ≠ []) ∧
    optSec11Heading.data <:+: (opt_main_block doc kw aks s).data ∧
    opt_main_block doc kw aks s ∈ build_optimization_prompt_chunks doc kw aks comps s :=
  ⟨gap_mem_iff doc kw aks comps s, sec11_in_main doc kw aks s,
   by simp [build_optimization_prompt_chunks]⟩

/-! ## Claim C2 -/

theorem structured_data_foldl {α : Type} (loads : Option String → Except String α) :
    ∀ (scripts : List (Option String)) (acc : List α),
      scripts.foldl
          (fun acc sc =>
            match loads sc with
            | .ok d => acc ++ [d]
            | .error _ => acc)
          acc
        = acc ++ scripts.filterMap fun sc => except_to_option (loads sc) := by
  intro scripts
  induction scripts with
  | nil => intro acc; simp
  | cons sc rest ih =>
    intro acc
    simp only [List.foldl_cons, List.filterMap_cons]
    cases hl : loads sc with
    | ok d => simp [hl, except_to_option, ih]
    | error e => simp [hl, except_to_option, ih]

/-- Claim C2: `_extract_structured_data` returns exactly the
successfully parsed JSON-LD blocks, in document order; a block on
which `json.loads` fails is skipped and the remaining blocks are still
collected (the function is total — the bare `except` swallows every
failure). -/
theorem claim_c2 {α : Type} (loads : Option String → Except String α)
    (scripts : List (Option String)) :
    extract_structured_data loads scripts
      = scripts.filterMap fun sc => except_to_option (loads sc) := by
  unfold extract_structured_data
  simpa using structured_data_foldl loads scripts []

/-! ## Claim C3 -/

/-- Claim C3 counterexample: the code classifies by the substring test
`domain in href`, not by host equality.  For source host `a.com` the
href `mailto:user@a.com` has no host and is not root-relative, so the
claim says it is excluded from both lists; the code classifies it as
internal. -/
theorem claim_c3_counterexample :
    is_internal_href "a.com" "mailto:user@a.com" = true ∧
    spec_is_internal "a.com" "mailto:user@a.com" = false ∧
    spec_is_external "a.com" "mailto:user@a.com" = false ∧
    extract_internal_links "a.com" [⟨"mailto:user@a.com", "contact"⟩]
      = [⟨"mailto:user@a.com", "contact"⟩] := by
  decide

/-- Claim C3 (amended): an anchor is placed in `internal_links` iff
the source host occurs as a substring anywhere in its href or the href
starts with a slash, and in `external_links` iff the href starts with
the four characters of http and the source host does not occur as a
substring; host equality is never computed. -/
theorem claim_c3_amended (domain : String) (a : Anchor) (anchors : List Anchor)
    (ha : a ∈ anchors) :
    (link_of_anchor a ∈ extract_internal_links domain anchors
        ↔ is_internal_href domain a.href = true) ∧
    (link_of_anchor a ∈ extract_external_links domain anchors
        ↔ is_external_href domain a.href = true) := by
  constructor
  · constructor
    · intro h
      unfold extract_internal_links at h
      obtain ⟨a2, ha2, he⟩ := List.mem_map.mp h
      have hf : is_internal_href domain a2.href = true := (List.mem_filter.mp ha2).2
      have hq : a2.href = a.href := congrArg Link.url he
      rwa [hq] at hf
    · intro hcond
      exact List.mem_map.mpr ⟨a, List.mem_filter.mpr ⟨ha, hcond⟩, rfl⟩
  · constructor
    · intro h
      unfold extract_external_links at h
      obtain ⟨a2, ha2, he⟩ := List.mem_map.mp h
      have hf : is_external_href domain a2.href = true := (List.mem_filter.mp ha2).2
      have hq : a2.href = a.href := congrArg Link.url he
      rwa [hq] at hf
    · intro hcond
      exact List.mem_map.mpr ⟨a, List.mem_filter.mpr ⟨ha, hcond⟩, rfl⟩

/-- Witness for claim C3 at a concrete anchor list. -/
theorem claim_c3_witness :
    link_of_anchor ⟨"/x", "t"⟩ ∈ extract_internal_links "a.com" [⟨"/x", "t"⟩] :=
  ((claim_c3_amended "a.com" ⟨"/x", "t"⟩ [⟨"/x", "t"⟩] (by decide)).1).mpr (by decide)

/-! ## Claim C4 -/

/-- Claim C4 counterexample: with the selection listed as follow_up
then equivalent, the description loop emits the lines in that input
order, not in the canonical catalog order required by the claim. -/
theorem claim_c4_counterexample :
    variant_descriptions ["follow_up", "equivalent"]
      ≠ spec_canonical_descriptions ["follow_up", "equivalent"] := by
  decide

set_option maxHeartbeats 1000000 in
theorem variant_description_inj {v k dl : String}
    (h1 : variant_description v = some dl) (h2 : variant_description k = some dl) :
    v = k := by
  unfold variant_description at h1 h2
  split_ifs at h1 h2 <;> subst_vars <;>
    first
      | rfl
      | exact Option.noConfusion h1
      | exact Option.noConfusion h2
      | exact absurd ((Option.some.inj h1).trans (Option.some.inj h2).symm) (by decide)

/-- Claim C4 (amended): the planning prompt contains the description
line of a catalog key iff that key is selected, but the lines appear
in the input order of `settings.variant_types`, not in the canonical
catalog order. -/
theorem claim_c4_amended (vts : List String) (k dl : String)
    (_hk : k ∈ canonical_variant_keys) (hdl : variant_description k = some dl) :
    dl ∈ variant_descriptions vts ↔ k ∈ vts := by
  unfold variant_descriptions
  rw [List.mem_filterMap]
  constructor
  · rintro ⟨v, hv, he⟩
    exact variant_description_inj he hdl ▸ hv
  · intro hkv
    exact ⟨k, hkv, hdl⟩

/-- Witness for claim C4 at a concrete selection. -/
theorem claim_c4_witness :
    "- Equivalent: Alternative ways to ask the same question"
      ∈ variant_descriptions ["follow_up", "equivalent"] :=
  (claim_c4_amended ["follow_up", "equivalent"] "equivalent"
      "- Equivalent: Alternative ways to ask the same question"
      (by decide) rfl).mpr (by decide)

/-! ## Claim C5 -/

/-- Claim C5 counterexample: with no variant types selected
(`variant_types = []`) no error of any kind is surfaced — the code has
no ConfigurationError — and a prompt string is still built and handed
to the provider. -/
theorem claim_c5_counterexample :
    analyze_query_fanout_new_content ["query one"] "key" { variant_types := some [] }
        (fun p => some p) ≠ none ∧
    ncFinal ∈ new_content_prompt_chunks ["query one"] { variant_types := some [] } := by
  constructor
  · unfold analyze_query_fanout_new_content
    rw [if_neg (by decide : ¬("key" = ""))]
    simp
  · simp [new_content_prompt_chunks]

/-- Claim C5 (amended): the code performs no settings validation: for
settings with an empty variant-type selection the builder still
produces a prompt (both variant-driven blocks are simply empty and the
closing chunk is present); the only pre-prompt check in
`analyze_query_fanout_new_content` is the falsy api-key check. -/
theorem claim_c5_amended (queries : List String) (s : Settings)
    (h : s.variant_types = some []) :
    variant_descriptions (s.variant_types.getD ["equivalent", "follow_up"]) = [] ∧
    variant_instruction_chunks (s.variant_types.getD []) = [] ∧
    ncFinal ∈ new_content_prompt_chunks queries s := by
  rw [h]
  exact ⟨rfl, rfl, by simp [new_content_prompt_chunks]⟩

/-- Witness for claim C5 at concrete empty-selection settings. -/
theorem claim_c5_witness :
    variant_descriptions
        ((({ variant_types := some [] } : Settings).variant_types).getD
          ["equivalent", "follow_up"]) = [] ∧
    variant_instruction_chunks
        ((({ variant_types := some [] } : Settings).variant_types).getD []) = [] ∧
    ncFinal ∈ new_content_prompt_chunks ["q"] { variant_types := some [] } :=
  claim_c5_amended ["q"] { variant_types := some [] } rfl

/-! ## Claim C6 -/

/-- Claim C6: the planning prompt contains the AI-Overviews section
exactly for targets ai_overviews and both, and the AI-Mode section
exactly for targets ai_mode and both. -/
theorem claim_c6 (queries : List String) (s : Settings) :
    (s.ai_search_type = some "ai_overviews" →
      ncSec4 ∈ new_content_prompt_chunks queries s ∧
      ncSec5 ∉ new_content_prompt_chunks queries s) ∧
    (s.ai_search_type = some "ai_mode" →
      ncSec5 ∈ new_content_prompt_chunks queries s ∧
      ncSec4 ∉ new_content_prompt_chunks queries s) ∧
    (s.ai_search_type = some "both" →
      ncSec4 ∈ new_content_prompt_chunks queries s ∧
      ncSec5 ∈ new_content_prompt_chunks queries s) := by
  refine ⟨fun h => ⟨?_, ?_⟩, fun h => ⟨?_, ?_⟩, fun h => ⟨?_, ?_⟩⟩
  · exact (ncSec4_mem_iff queries s).mpr (by rw [h]; decide)
  · intro hmem
    have hx := (ncSec5_mem_iff queries s).mp hmem
    rw [h] at hx
    exact (by decide : ¬(py_get_in (some "ai_overviews") ["ai_mode", "both"] = true)) hx
  · exact (ncSec5_mem_iff queries s).mpr (by rw [h]; decide)
  · intro hmem
    have hx := (ncSec4_mem_iff queries s).mp hmem
    rw [h] at hx
    exact (by decide : ¬(py_get_in (some "ai_mode") ["ai_overviews", "both"] = true)) hx
  · exact (ncSec4_mem_iff queries s).mpr (by rw [h]; decide)
  · exact (ncSec5_mem_iff queries s).mpr (by rw [h]; decide)

/-- Witness for claim C6 at concrete ai_overviews settings. -/
theorem claim_c6_witness :
    ncSec4 ∈ new_content_prompt_chunks [] { ai_search_type := some "ai_overviews" } ∧
    ncSec5 ∉ new_content_prompt_chunks [] { ai_search_type := some "ai_overviews" } :=
  (claim_c6 [] { ai_search_type := some "ai_overviews" }).1 rfl

/-! ## Claim C7 -/

theorem splitWs_skip (t : List Char) : ∀ (rest acc : List Char),
    (∀ c ∈ t, pyIsSpace c = false) →
    splitWs (t ++ rest) acc = splitWs rest (t.reverse ++ acc) := by
  induction t with
  | nil => intro rest acc _; simp
  | cons c cs ih =>
    intro rest acc h
    have hc : pyIsSpace c = false := h c (List.mem_cons_self c cs)
    rw [List.cons_append]
    simp only [splitWs, hc]
    rw [ih rest (c :: acc) (fun x hx => h x (List.mem_cons_of_mem c hx))]
    simp [List.reverse_cons, List.append_assoc]

theorem splitWs_tokens : ∀ (cs acc : List Char),
    (∀ c ∈ acc, pyIsSpace c = false) →
    ∀ t ∈ splitWs cs acc, t ≠ [] ∧ ∀ c ∈ t, pyIsSpace c = false := by
  intro cs
  induction cs with
  | nil =>
    intro acc hacc t ht
    simp only [splitWs] at ht
    by_cases ha : acc.isEmpty = true
    · rw [if_pos ha] at ht
      simp at ht
    · rw [if_neg ha] at ht
      simp at ht
      subst ht
      refine ⟨?_, ?_⟩
      · intro hrev
        rw [List.reverse_eq_nil_iff] at hrev
        exact ha (by simp [hrev])
      · intro x hx
        exact hacc x (List.mem_reverse.mp hx)
  | cons c cs ih =>
    intro acc hacc t ht
    simp only [splitWs] at ht
    by_cases hc : pyIsSpace c = true
    · rw [if_pos hc] at ht
      by_cases ha : acc.isEmpty = true
      · rw [if_pos ha] at ht
        exact ih [] (by simp) t ht
      · rw [if_neg ha] at ht
        rcases List.mem_cons.mp ht with rfl | ht2
        · refine ⟨?_, ?_⟩
          · intro hrev
            rw [List.reverse_eq_nil_iff] at hrev
            exact ha (by simp [hrev])
          · intro x hx
            exact hacc x (List.mem_reverse.mp hx)
        · exact ih [] (by simp) t ht2
    · rw [if_neg hc] at ht
      refine ih (c :: acc) ?_ t ht
      intro x hx
      rcases List.mem_cons.mp hx with rfl | hx2
      · exact Bool.eq_false_iff.mpr hc
      · exact hacc x hx2

theorem joinWs_split : ∀ (ts : List (List Char)),
    (∀ t ∈ ts, t ≠ [] ∧ ∀ c ∈ t, pyIsSpace c = false) →
    splitWs (joinWs ts) [] = ts := by
  intro ts
  induction ts with
  | nil => intro _; rfl
  | cons t ts ih =>
    intro h
    have ht := h t (List.mem_cons_self t ts)
    have hrevne : t.reverse.isEmpty = false := by
      cases hrv : t.reverse with
      | nil => exact absurd (List.reverse_eq_nil_iff.mp hrv) ht.1
      | cons a l => rfl
    cases ts with
    | nil =>
      have hj : joinWs [t] = t := by simp [joinWs]
      rw [hj]
      have hskip := splitWs_skip t [] [] ht.2
      rw [List.append_nil] at hskip
      rw [hskip]
      simp only [splitWs, hrevne, List.append_nil]
      simp [List.reverse_reverse]
    | cons t2 ts2 =>
      have hrest : ∀ x ∈ t2 :: ts2, x ≠ [] ∧ ∀ c ∈ x, pyIsSpace c = false :=
        fun x hx => h x (List.mem_cons_of_mem _ hx)
      have hj : joinWs (t :: t2 :: ts2) = t ++ (' ' :: joinWs (t2 :: ts2)) := by
        simp [joinWs, List.intersperse]
      rw [hj, splitWs_skip t _ [] ht.2, List.append_nil]
      simp only [splitWs, (by decide : pyIsSpace ' ' = true), hrevne]
      simp [List.reverse_reverse, ih hrest]

/-- Claim C7: the body excerpt embedded by `_build_optimization_prompt`
has at most 1000 whitespace-delimited tokens, its token list is
exactly the first 1000 tokens of the body text, and it is a
token-aligned prefix (no token is split). -/
theorem claim_c7 (doc : DocModel) :
    pySplit (content_excerpt doc.content) = (pySplit doc.content).take 1000 ∧
    (pySplit (content_excerpt doc.content)).length ≤ 1000 ∧
    pySplit (content_excerpt doc.content) <+: pySplit doc.content := by
  have hvalid : ∀ t ∈ (splitWs doc.content.data []).take 1000,
      t ≠ [] ∧ ∀ c ∈ t, pyIsSpace c = false :=
    fun t ht => splitWs_tokens doc.content.data [] (by simp) t (List.take_subset _ _ ht)
  have h1 : pySplit (content_excerpt doc.content) = (pySplit doc.content).take 1000 := by
    unfold pySplit content_excerpt
    show ((splitWs (joinWs ((splitWs doc.content.data []).take 1000)) []).map String.mk)
      = ((splitWs doc.content.data []).map String.mk).take 1000
    rw [joinWs_split _ hvalid, List.map_take]
  refine ⟨h1, ?_, ?_⟩
  · rw [h1, List.length_take]
    exact min_le_left _ _
  · rw [h1]
    exact ⟨(pySplit doc.content).drop 1000, List.take_append_drop _ _⟩

/-! ## Claim C8 -/

theorem startswith_slash_not_http (href : String)
    (h : py_startswith href "/" = true) : py_startswith href "http" = false := by
  unfold py_startswith at h ⊢
  have h1 : ("/" : String).data = ['/'] := rfl
  have h2 : ("http" : String).data = ['h', 't', 't', 'p'] := rfl
  rw [h1] at h
  rw [h2]
  cases hd : href.data with
  | nil => rw [hd] at h; simp [List.isPrefixOf] at h
  | cons c cs =>
    rw [hd] at h
    simp [List.isPrefixOf] at h
    subst h
    simp [List.isPrefixOf]

theorem internal_not_external (domain href : String)
    (h : is_internal_href domain href = true) :
    is_external_href domain href = false := by
  unfold is_internal_href at h
  unfold is_external_href
  cases hc : pyIn domain href with
  | true => simp [hc]
  | false =>
    rw [hc] at h
    simp at h
    rw [startswith_slash_not_http href h]
    simp

/-- Claim C8: the internal and external link lists of one extraction
are disjoint — no link entry appears in both. -/
theorem claim_c8 (domain : String) (anchors : List Anchor) (l : Link)
    (h : l ∈ extract_internal_links domain anchors) :
    l ∉ extract_external_links domain anchors := by
  intro hext
  unfold extract_internal_links at h
  unfold extract_external_links at hext
  obtain ⟨a1, ha1, he1⟩ := List.mem_map.mp h
  obtain ⟨a2, ha2, he2⟩ := List.mem_map.mp hext
  have hf1 : is_internal_href domain a1.href = true := (List.mem_filter.mp ha1).2
  have hf2 : is_external_href domain a2.href = true := (List.mem_filter.mp ha2).2
  have hq : a2.href = a1.href := congrArg Link.url (he2.trans he1.symm)
  rw [hq] at hf2
  rw [internal_not_external domain a1.href hf1] at hf2
  exact Bool.false_ne_true hf2

/-- Witness for claim C8 at a concrete anchor list. -/
theorem claim_c8_witness :
    link_of_anchor ⟨"/p", "t"⟩ ∉ extract_external_links "d.com" [⟨"/p", "t"⟩] :=
  claim_c8 "d.com" [⟨"/p", "t"⟩] (link_of_anchor ⟨"/p", "t"⟩) (by decide)

/-! ## Claim C9 -/

/-- Claim C9: a present `<title>` whose text strips to the empty
string yields the empty title — the h1 / sentinel fallback chain is
reached only when the element is absent. -/
theorem claim_c9 (t : String) (h1_tag : Option String) (h : py_strip t = "") :
    extract_title (some t) h1_tag = "" := h

/-- Witness for claim C9 at a whitespace-only title. -/
theorem claim_c9_witness : extract_title (some "   ") (some "Heading") = "" :=
  claim_c9 "   " (some "Heading") (by decide)

/-! ## Claim C10 -/

/-- Claim C10: with no variant_types key at all, the description loop
falls back to equivalent and follow_up while the instruction loop
falls back to the empty list, so the two variant-driven blocks of the
prompt disagree. -/
theorem claim_c10 (s : Settings) (h : s.variant_types = none) :
    variant_descriptions (s.variant_types.getD ["equivalent", "follow_up"])
      = ["- Equivalent: Alternative ways to ask the same question",
         "- Follow-up: Logical next questions"] ∧
    variant_instruction_chunks (s.variant_types.getD []) = [] := by
  rw [h]
  exact ⟨by decide, rfl⟩

/-- Witness for claim C10 at default settings. -/
theorem claim_c10_witness :
    variant_descriptions ((({} : Settings).variant_types).getD ["equivalent", "follow_up"])
      = ["- Equivalent: Alternative ways to ask the same question",
         "- Follow-up: Logical next questions"] ∧
    variant_instruction_chunks ((({} : Settings).variant_types).getD []) = [] :=
  claim_c10 {} rfl

end QuerySprout
